import Mathlib

/-!
Verification of the quickwit search thread pool
(src/quickwit/quickwit-search/src/thread_pool.rs).

The file shallowly embeds the task-submission pipeline of the source:
`build_executor` and `search_executor` (pool construction and the lazily
initialized process-wide singleton), the `Panicked` marker error, and
`run_cpu_intensive` (dispatch of a CPU-heavy closure onto the pool, with a
metrics gauge guard, pre-execution cancellation, panic isolation and the
final `map_err(|_| Panicked)`).

Parts of the behaviour live in collaborator crates rather than in the file
itself and are modelled from the spec where noted: the `GaugeGuard` drop
semantics (quickwit_common::metrics), the atomic get-or-init contract of
`once_cell::sync::OnceCell`, the worker-side wrapper of
`tantivy::Executor::spawn_blocking` (interest check before invocation,
one-shot completion channel), and the rayon worker panic policy (a pool
built with a panic handler keeps its worker after a task panics).
-/

namespace ThreadPool

/-- Observable behaviour of a caller-supplied zero-argument computation when
it is invoked: it either returns a value or panics. -/
inductive CompOutcome (R : Type) where
  | value (r : R)
  | panics
deriving DecidableEq

/-- Whether the computation panics when invoked. -/
def CompOutcome.isPanics {R : Type} : CompOutcome R → Bool
  | .value _ => false
  | .panics => true

/-- States of a submitted task, as in the spec state machine:
Queued, Running, Completed(R), Panicked, Cancelled. -/
inductive TaskState (R : Type) where
  | queued
  | running
  | completed (r : R)
  | panicked
  | cancelled
deriving DecidableEq

/-- Mutation events on the external ActiveWorkerGauge counter. -/
inductive GaugeEvent where
  | add (n : Int)
  | sub (n : Int)
deriving DecidableEq

/-- Number of add events in a gauge trace. -/
def addCount : List GaugeEvent → Nat
  | [] => 0
  | .add _ :: rest => addCount rest + 1
  | .sub _ :: rest => addCount rest

/-- Number of sub events in a gauge trace. -/
def subCount : List GaugeEvent → Nat
  | [] => 0
  | .add _ :: rest => subCount rest
  | .sub _ :: rest => subCount rest + 1

/-- Net effect of a gauge trace on the counter value. -/
def gaugeDelta : List GaugeEvent → Int
  | [] => 0
  | .add n :: rest => n + gaugeDelta rest
  | .sub n :: rest => gaugeDelta rest - n

/-- Failure of the await step on the completion channel (the receiver side
error that `map_err` sees on line 88 of the source); `cause` records the
actual reason, which the source discards. -/
structure RecvError where
  cause : String
deriving DecidableEq

/-- The `Panicked` marker from the source (lines 45-54): a fieldless struct
deriving Eq, so it is a single stateless value. -/
inductive Panicked where
  | mk
deriving DecidableEq

/-- The Display implementation of `Panicked` (source lines 48-52): the fixed
message written by `write!(f, "Scheduled job panicked")`. -/
def Panicked.display : Panicked → String
  | .mk => "Scheduled job panicked"

/-- Trace of how one submitted task is processed on the worker side:
the sequence of task states visited, the gauge events performed, whether the
computation was invoked, and the value sent on the completion channel
(`none` when the sender is dropped without sending, which happens on panic
and on cancellation). -/
structure TaskTrace (R : Type) where
  states : List (TaskState R)
  gaugeEvents : List GaugeEvent
  invoked : Bool
  sent : Option R

/-- Modelled from the spec: the worker-side wrapper that
`tantivy::Executor::spawn_blocking` runs around the closure built in
`run_cpu_intensive` (source lines 79-85). `iStart` is whether the caller is
still awaiting when a worker picks the task up; the wrapper checks it before
invoking anything. If the caller has abandoned, the task goes
Queued to Cancelled with no gauge event and no invocation. Otherwise the
closure runs: a `GaugeGuard` is created and `add(1)` called before the
computation, and the guard drop subtracts the recorded delta on every exit,
including panic unwinding (GaugeGuard semantics of quickwit_common, also
modelled from the spec). On success the result is sent on the channel; on
panic the sender is dropped without sending. -/
def workerProcess {R : Type} (iStart : Bool) (comp : CompOutcome R) : TaskTrace R :=
  match iStart, comp with
  | false, _ =>
    { states := [.queued, .cancelled]
      gaugeEvents := []
      invoked := false
      sent := none }
  | true, .value r =>
    { states := [.queued, .running, .completed r]
      gaugeEvents := [.add 1, .sub 1]
      invoked := true
      sent := some r }
  | true, .panics =>
    { states := [.queued, .running, .panicked]
      gaugeEvents := [.add 1, .sub 1]
      invoked := true
      sent := none }

/-- Awaiting the receiving end of the completion channel: a sent value is
delivered as ok, a dropped sender surfaces as a receive error. -/
def awaitReceiver {R : Type} (sent : Option R) : Except RecvError R :=
  match sent with
  | some r => Except.ok r
  | none => Except.error { cause := "sender dropped without sending a value" }

/-- The `map_err(|_| Panicked)` on line 88 of the source: every error of the
await step is replaced by the single `Panicked` value, discarding the cause. -/
def mapToPanicked {R : Type} (res : Except RecvError R) : Except Panicked R :=
  Except.mapError (fun _ => Panicked.mk) res

/-- Shallow embedding of `run_cpu_intensive` (source lines 72-88) as observed
by the caller. `iStart` is whether the caller is still awaiting when a worker
reaches the task; `iEnd` is whether the caller is still awaiting at delivery
time (abandonment is monotone, so in every real execution `iEnd = true`
implies `iStart = true`). A caller that abandoned the awaitable observes
nothing: the awaitable never resolves for it, modelled as `none`. A caller
still awaiting observes the awaited channel result passed through
`mapToPanicked`. -/
def run_cpu_intensive {R : Type} (iStart iEnd : Bool) (comp : CompOutcome R) :
    Option (Except Panicked R) :=
  match iEnd with
  | true => some (mapToPanicked (awaitReceiver (workerProcess iStart comp).sent))
  | false => none

/-- Configuration of the rayon pool built by `build_executor` (source lines
30-39): a fixed worker count and whether a panic handler is installed. -/
structure RayonPool where
  numThreads : Nat
  hasPanicHandler : Bool
deriving DecidableEq

/-- The tantivy executor wrapping the rayon pool. -/
inductive Executor where
  | threadPool (pool : RayonPool)
deriving DecidableEq

/-- Outcome of `build_executor`: either the built executor, or a process
abort, because the source unwraps the builder result with
`.expect("Failed to spawn the spawning pool")` and has no error return. -/
inductive BuildResult where
  | built (e : Executor)
  | processAbort
deriving DecidableEq

/-- The executor that `build_executor` produces when thread spawning
succeeds: a rayon pool with a panic handler installed (source lines 31-38;
the default rayon thread count is the number of logical cores). -/
def builtExecutor (numCpus : Nat) : Executor :=
  .threadPool { numThreads := numCpus, hasPanicHandler := true }

/-- Shallow embedding of `build_executor` (source lines 30-39). `spawnOk`
abstracts whether the OS lets the builder spawn its worker threads; on
failure the `.expect` call panics, aborting startup, and no error value is
ever returned to a caller. -/
def build_executor (numCpus : Nat) (spawnOk : Bool) : BuildResult :=
  match spawnOk with
  | true => .built (builtExecutor numCpus)
  | false => .processAbort

/-- Modelled from the spec: the atomic `get_or_init` contract of
`once_cell::sync::OnceCell` (an external crate): if the cell is filled the
stored value is returned unchanged, otherwise the initializer runs exactly
once and its result is stored and returned. The third component counts
initializer runs. -/
def getOrInit (cell : Option Executor) (init : Unit → Executor) :
    Executor × Option Executor × Nat :=
  match cell with
  | some e => (e, some e, 0)
  | none => (init (), some (init ()), 1)

/-- Shallow embedding of `search_executor` (source lines 41-43): get or
lazily initialize the process-wide `SEARCH_THREAD_POOL` cell with the
successfully built executor, and hand back a clone of the shared handle. -/
def search_executor (numCpus : Nat) (cell : Option Executor) :
    Executor × Option Executor × Nat :=
  getOrInit cell (fun _ => builtExecutor numCpus)

/-- A sequence of `search_executor` calls threaded through the cell state:
returns the list of handles handed out, the final cell state, and the total
number of initializer runs. Because `get_or_init` is atomic, any concurrent
first use linearizes to such a sequence. -/
def searchSeq (numCpus : Nat) : Nat → Option Executor →
    List Executor × Option Executor × Nat
  | 0, cell => ([], cell, 0)
  | n + 1, cell =>
    let step := search_executor numCpus cell
    let rest := searchSeq numCpus n step.2.1
    (step.1 :: rest.1, rest.2.1, step.2.2 + rest.2.2)

/-- Modelled from the spec: the rayon worker panic policy. A panic escaping
a task closure reaches the pool; with a panic handler installed the handler
logs it and the worker returns to the queue, while without one the worker
would be lost. Cancelled tasks never run, so they cannot panic. -/
def poolAfterTask {R : Type} (pool : RayonPool) (iStart : Bool)
    (comp : CompOutcome R) : RayonPool :=
  if iStart && comp.isPanics && !pool.hasPanicHandler then
    { pool with numThreads := pool.numThreads - 1 }
  else
    pool

/-- A sequence of submissions processed against the pool: each element is
(caller awaiting at pickup, caller awaiting at delivery, computation).
Returns the final pool state and the result each caller observes. -/
def poolRun {R : Type} (pool : RayonPool) :
    List (Bool × Bool × CompOutcome R) →
    RayonPool × List (Option (Except Panicked R))
  | [] => (pool, [])
  | (iS, iE, comp) :: rest =>
    let out := poolRun (poolAfterTask pool iS comp) rest
    (out.1, run_cpu_intensive iS iE comp :: out.2)

/-- Total gauge effect of a sequence of submissions, each identified by the
interest flag at pickup and the computation. -/
def totalGaugeDelta {R : Type} : List (Bool × CompOutcome R) → Int
  | [] => 0
  | (iS, comp) :: rest =>
    gaugeDelta (workerProcess iS comp).gaugeEvents + totalGaugeDelta rest

/-- Legal single transitions of the spec state machine:
Queued to Running, Queued to Cancelled, Running to Completed,
Running to Panicked, and nothing else. -/
def legalStep {R : Type} : TaskState R → TaskState R → Bool
  | .queued, .running => true
  | .queued, .cancelled => true
  | .running, .completed _ => true
  | .running, .panicked => true
  | _, _ => false

/-- A state list is a legal path when every adjacent pair is a legal step. -/
def legalPath {R : Type} : List (TaskState R) → Bool
  | [] => true
  | [_] => true
  | a :: b :: rest => legalStep a b && legalPath (b :: rest)

section Lemmas

/-- Every single task has zero net gauge effect. -/
theorem gaugeDelta_workerProcess {R : Type} (iS : Bool) (comp : CompOutcome R) :
    gaugeDelta (workerProcess iS comp).gaugeEvents = 0 := by
  cases iS <;> cases comp <;> simp [workerProcess, gaugeDelta]

/-- A pool whose panic handler is installed is unchanged by any task. -/
theorem poolAfterTask_of_handler {R : Type} (pool : RayonPool)
    (h : pool.hasPanicHandler = true) (iS : Bool) (comp : CompOutcome R) :
    poolAfterTask pool iS comp = pool := by
  simp [poolAfterTask, h]

/-- A pool whose panic handler is installed is unchanged by any sequence of
submissions. -/
theorem poolRun_fst_of_handler {R : Type} (pool : RayonPool)
    (h : pool.hasPanicHandler = true)
    (subs : List (Bool × Bool × CompOutcome R)) :
    (poolRun pool subs).1 = pool := by
  induction subs with
  | nil => rfl
  | cons s rest ih =>
    obtain ⟨iS, iE, comp⟩ := s
    simp [poolRun, poolAfterTask_of_handler pool h iS comp, ih]

/-- The observed results of a sequence of submissions do not depend on the
pool state: each is the result of `run_cpu_intensive` for that submission. -/
theorem poolRun_snd {R : Type} (subs : List (Bool × Bool × CompOutcome R)) :
    ∀ pool : RayonPool,
      (poolRun pool subs).2 =
        subs.map (fun s => run_cpu_intensive s.1 s.2.1 s.2.2) := by
  induction subs with
  | nil => intro pool; rfl
  | cons s rest ih =>
    intro pool
    obtain ⟨iS, iE, comp⟩ := s
    simp [poolRun, ih]

/-- Calling `search_executor` on an already filled cell hands out the stored
executor every time, never reinitializing. -/
theorem searchSeq_filled (numCpus : Nat) (e : Executor) :
    ∀ n : Nat, searchSeq numCpus n (some e) = (List.replicate n e, some e, 0) := by
  intro n
  induction n with
  | zero => rfl
  | succ m ih =>
    simp [searchSeq, search_executor, getOrInit, ih, List.replicate_succ]

end Lemmas

/-- C1: for every pure, non-panicking computation producing `r`, a caller
that awaits `run_cpu_intensive` to completion observes `Ok r`: the value is
delivered unchanged. -/
theorem run_cpu_intensive_ok {R : Type} (r : R) :
    run_cpu_intensive true true (CompOutcome.value r) = some (Except.ok r) := rfl

/-- C2: for a computation that panics, an awaiting caller observes
`Err Panicked`, and for a non-panicking computation the awaited result is
`Ok` of its value, hence never an error: the panic of the submitted
computation is the error condition. -/
theorem run_cpu_intensive_panic_err {R : Type} (r : R) :
    run_cpu_intensive true true (CompOutcome.panics (R := R)) =
      some (Except.error Panicked.mk) ∧
    run_cpu_intensive true true (CompOutcome.value r) = some (Except.ok r) :=
  ⟨rfl, rfl⟩

/-- C3: when the caller has abandoned the awaitable before a worker picks
the task up, the worker-side interest check fires first: the computation is
never invoked, no gauge event happens at all (in particular no increment),
and the task goes directly from Queued to Cancelled. -/
theorem cancelled_task_never_invoked {R : Type} (comp : CompOutcome R) :
    (workerProcess false comp).invoked = false ∧
    (workerProcess false comp).gaugeEvents = [] ∧
    addCount (workerProcess false comp).gaugeEvents = 0 ∧
    (workerProcess false comp).states = [TaskState.queued, TaskState.cancelled] :=
  ⟨rfl, rfl, rfl, rfl⟩

/-- C4: every task that reaches Running (exactly the tasks whose caller is
still interested at pickup, `iStart = true`) performs exactly one gauge
increment and exactly one gauge decrement, whether the computation succeeds
or panics; tasks that never run produce no gauge events; and the net gauge
drift over any sequence of completed tasks is zero. -/
theorem gauge_pairing {R : Type} (comp : CompOutcome R)
    (subs : List (Bool × CompOutcome R)) :
    TaskState.running ∈ (workerProcess true comp).states ∧
    addCount (workerProcess true comp).gaugeEvents = 1 ∧
    subCount (workerProcess true comp).gaugeEvents = 1 ∧
    (workerProcess false comp).gaugeEvents = [] ∧
    totalGaugeDelta subs = 0 := by
  refine ⟨?_, ?_, ?_, rfl, ?_⟩
  · cases comp <;> simp [workerProcess]
  · cases comp <;> rfl
  · cases comp <;> rfl
  · induction subs with
    | nil => rfl
    | cons s rest ih =>
      obtain ⟨iS, c⟩ := s
      simp [totalGaugeDelta, gaugeDelta_workerProcess, ih]

/-- C5: a panic inside a submitted computation never shrinks the pool. The
executor built by `build_executor` has the panic handler installed, so any
sequence of submissions leaves the pool unchanged; in particular after 100
consecutive panicking tasks the worker count is intact, each panicking
submission resolves to `Err Panicked`, and a subsequent non-panicking
submission still resolves to `Ok` of its value. -/
theorem pool_survives_panics (n r : Nat)
    (subs : List (Bool × Bool × CompOutcome Nat)) :
    build_executor n true =
      BuildResult.built
        (Executor.threadPool { numThreads := n, hasPanicHandler := true }) ∧
    (poolRun { numThreads := n, hasPanicHandler := true } subs).1 =
      { numThreads := n, hasPanicHandler := true } ∧
    (poolRun { numThreads := n, hasPanicHandler := true }
        (List.replicate 100 (true, true, CompOutcome.panics) ++
          [(true, true, CompOutcome.value r)])).1.numThreads = n ∧
    (poolRun { numThreads := n, hasPanicHandler := true }
        (List.replicate 100 (true, true, CompOutcome.panics) ++
          [(true, true, CompOutcome.value r)])).2 =
      List.replicate 100 (some (Except.error Panicked.mk)) ++
        [some (Except.ok r)] := by
  refine ⟨rfl, poolRun_fst_of_handler _ rfl subs, ?_, ?_⟩
  · rw [poolRun_fst_of_handler _ rfl]
  · rw [poolRun_snd]
    rfl

/-- C6: every task follows the state machine Queued to Running to
Completed or Panicked, with Cancelled reachable only from Queued: the
abandoned-at-pickup trace is exactly [Queued, Cancelled] with no invocation,
the interested traces run the computation to its Completed or Panicked
terminal state, every trace is a legal path of the transition relation, and
when the caller abandons before delivery the result is silently discarded
(the awaitable never resolves for it) while the trace is unaffected. -/
theorem task_state_machine {R : Type} (r : R) (comp : CompOutcome R)
    (iS : Bool) :
    (workerProcess false comp).states =
      [TaskState.queued, TaskState.cancelled] ∧
    (workerProcess false comp).invoked = false ∧
    (workerProcess true (CompOutcome.value r)).states =
      [TaskState.queued, TaskState.running, TaskState.completed r] ∧
    (workerProcess true (CompOutcome.value r)).invoked = true ∧
    (workerProcess true (CompOutcome.panics (R := R))).states =
      [TaskState.queued, TaskState.running, TaskState.panicked] ∧
    (workerProcess true (CompOutcome.panics (R := R))).invoked = true ∧
    legalPath (workerProcess iS comp).states = true ∧
    run_cpu_intensive iS false comp = none := by
  refine ⟨rfl, rfl, rfl, rfl, rfl, rfl, ?_, rfl⟩
  cases iS <;> cases comp <;> rfl

/-- C7: obtaining the pool handle is idempotent. Starting from the empty
singleton cell, any positive number of `search_executor` calls hands every
caller the same executor (the one built on first use), leaves the cell
holding exactly that executor, and runs the initializer exactly once. -/
theorem search_executor_idempotent (numCpus n : Nat) :
    searchSeq numCpus (n + 1) none =
      (List.replicate (n + 1) (builtExecutor numCpus),
        some (builtExecutor numCpus), 1) := by
  simp [searchSeq, search_executor, getOrInit, searchSeq_filled,
    List.replicate_succ]

/-- C8: pool construction failure is never a recoverable error. When thread
spawning fails, `build_executor` aborts (the `.expect` panics) instead of
returning an error value; when it succeeds it returns the built executor;
and the only inhabitant of the error type of `run_cpu_intensive` is the
`Panicked` marker, so `Panicked` remains the only per-call error outcome. -/
theorem build_executor_no_error_path (numCpus : Nat) (p : Panicked) :
    build_executor numCpus false = BuildResult.processAbort ∧
    build_executor numCpus true = BuildResult.built (builtExecutor numCpus) ∧
    p = Panicked.mk := by
  refine ⟨rfl, rfl, ?_⟩
  cases p
  rfl

/-- C9: `Panicked` is a stateless marker: any two values of the type are
equal, and its Display rendering is exactly "Scheduled job panicked". -/
theorem panicked_stateless_marker (a b : Panicked) :
    a = b ∧ Panicked.display a = "Scheduled job panicked" := by
  cases a
  cases b
  exact ⟨rfl, rfl⟩

/-- C10: the `map_err(|_| Panicked)` step maps every failure of the await
step to the same `Panicked` value regardless of its cause, so a caller
cannot distinguish failure causes; and `run_cpu_intensive` observes the
awaited channel result only through this map. -/
theorem map_err_collapses_all_failures {R : Type} (e1 e2 : RecvError)
    (iS : Bool) (comp : CompOutcome R) :
    mapToPanicked (Except.error e1 : Except RecvError R) =
      Except.error Panicked.mk ∧
    mapToPanicked (Except.error e1 : Except RecvError R) =
      mapToPanicked (Except.error e2) ∧
    run_cpu_intensive iS true comp =
      some (mapToPanicked (awaitReceiver (workerProcess iS comp).sent)) :=
  ⟨rfl, rfl, rfl⟩

end ThreadPool
